import Mathlib

/-!
Shallow embedding of `src/measure.py` (repository `the-nose`): a polling loop
that reads up to four I2C sensors each tick and emits readings as attributes
on an OpenTelemetry span.

Modelling conventions:
* Python exceptions are `Except PyExc`; `PyExc.runtimeError` is the
  `RuntimeError` caught in `read_particulates`, `PyExc.other` any other
  exception (all of which are uncaught in the source).
* Observable effects (span creation, `set_attribute`, console prints,
  `time.sleep`, polling the SCD30 data-ready flag) are recorded as a
  `List Event` trace.
* Python floats are modelled as rationals `ℚ`; the numeric text rendering of
  console prints uses `toString` on `ℚ` (the exact float format string is not
  load-bearing for any property proved here).
* `sensor.eCO2` etc. are property reads on hardware drivers that may raise;
  a per-tick reading of a sensor is therefore a `PyResult` of its data record.
-/

set_option autoImplicit false

namespace TheNose

/-- Python exceptions, as far as the source distinguishes them: `read_particulates`
catches exactly `RuntimeError`; everything else propagates. -/
inductive PyExc where
  | runtimeError
  | other
deriving DecidableEq, Repr

/-- Result of running a piece of Python code: a value or an uncaught exception. -/
abbrev PyResult (α : Type) := Except PyExc α

/-- An OpenTelemetry attribute value: the source sets numbers and strings. -/
inductive AttrVal where
  | num (q : ℚ)
  | str (s : String)
deriving DecidableEq, Repr

/-- Observable effects of the program, in order of occurrence. -/
inductive Event where
  | spanCreate (name : String)
  | spanEnd (name : String)
  | setAttr (key : String) (v : AttrVal)
  | consolePrint (line : String)
  | sleep (seconds : ℚ)
  | pollDataReady
deriving DecidableEq, Repr

/-- Number of `set_attribute` events in a trace. -/
def attrCount : List Event → ℕ
  | [] => 0
  | .setAttr _ _ :: es => attrCount es + 1
  | _ :: es => attrCount es

/-- Number of `set_attribute` events with a given key. -/
def attrKeyCount (k : String) : List Event → ℕ
  | [] => 0
  | .setAttr k2 _ :: es =>
      if k2 = k then attrKeyCount k es + 1 else attrKeyCount k es
  | _ :: es => attrKeyCount k es

/-- The (key, value) pairs of all `set_attribute` events, in order. -/
def attrsOf : List Event → List (String × AttrVal)
  | [] => []
  | .setAttr k v :: es => (k, v) :: attrsOf es
  | _ :: es => attrsOf es

/-- Number of span-creation events in a trace. -/
def spanCreateCount : List Event → ℕ
  | [] => 0
  | .spanCreate _ :: es => spanCreateCount es + 1
  | _ :: es => spanCreateCount es

/-- Number of span-end events in a trace. -/
def spanEndCount : List Event → ℕ
  | [] => 0
  | .spanEnd _ :: es => spanEndCount es + 1
  | _ :: es => spanEndCount es

/-- Number of `data_available` polls in a trace. -/
def pollCount : List Event → ℕ
  | [] => 0
  | .pollDataReady :: es => pollCount es + 1
  | _ :: es => pollCount es

/-- Total seconds spent in `time.sleep` calls recorded in a trace. -/
def totalSleep : List Event → ℚ
  | [] => 0
  | .sleep s :: es => s + totalSleep es
  | _ :: es => totalSleep es

/-- Python built-in `round` on a rational: round to nearest integer, ties to
even (banker's rounding), as Python 3 does. -/
def pyRound (q : ℚ) : ℤ :=
  if Int.fract q < 1/2 then ⌊q⌋
  else if 1/2 < Int.fract q then ⌊q⌋ + 1
  else if Even ⌊q⌋ then ⌊q⌋ else ⌊q⌋ + 1

/-- The Fahrenheit conversion expression `((9 / 5) * t) + 32` used in
`read_real_co2` (line 164) and `read_pht` (line 190). -/
def fahrenheit (t : ℚ) : ℚ := 9 / 5 * t + 32

/-- Configuration keys and sensor-kind names from the top of the source. -/
def SENSOR_PM25 : String := "pm25"

/-- Sensor-kind name for the SGP30 volatile-organic sensor. -/
def SENSOR_SGP30 : String := "sgp30"

/-- Sensor-kind name for the SCD30 direct-CO2 sensor. -/
def SENSOR_SCD30 : String := "scd30"

/-- Sensor-kind name for the MS8607 pressure/humidity/temperature sensor. -/
def SENSOR_MS8607 : String := "ms8607"

/-- `DEFAULT_SENSORS = [SENSOR_PM25, SENSOR_SGP30]` (line 35). -/
def DEFAULT_SENSORS : List String := [SENSOR_PM25, SENSOR_SGP30]

/-- `BASELINE_FREQUENCY = 60` (line 37). -/
def BASELINE_FREQUENCY : ℕ := 60

/-! ## PM2.5 particulate sensor (`read_particulates`, lines 67-105) -/

/-- The twelve named fields of one PMSA003I reading (`aqdata` dict, in the
order the driver populates them). -/
structure AQData where
  pm10_standard : ℚ
  pm25_standard : ℚ
  pm100_standard : ℚ
  pm10_env : ℚ
  pm25_env : ℚ
  pm100_env : ℚ
  particles_03um : ℚ
  particles_05um : ℚ
  particles_10um : ℚ
  particles_25um : ℚ
  particles_50um : ℚ
  particles_100um : ℚ
deriving DecidableEq, Repr

/-- `aqdata.items()`: the dict items with their Python keys (spaces included). -/
def AQData.items (d : AQData) : List (String × ℚ) :=
  [("pm10 standard", d.pm10_standard), ("pm25 standard", d.pm25_standard),
   ("pm100 standard", d.pm100_standard), ("pm10 env", d.pm10_env),
   ("pm25 env", d.pm25_env), ("pm100 env", d.pm100_env),
   ("particles 03um", d.particles_03um), ("particles 05um", d.particles_05um),
   ("particles 10um", d.particles_10um), ("particles 25um", d.particles_25um),
   ("particles 50um", d.particles_50um), ("particles 100um", d.particles_100um)]

/-- `key.replace(" ", "_")` (line 105). Since the pattern is the single
character `' '`, Python's `str.replace` is exactly a character map. -/
def underscoreKey (k : String) : String :=
  ⟨k.data.map fun c => if c = ' ' then '_' else c⟩

/-- The console block printed by `read_particulates` when not quiet
(lines 84-102). -/
def aqConsoleBlock (d : AQData) : List Event :=
  [.consolePrint "",
   .consolePrint "Concentration Units (standard)",
   .consolePrint "---------------------------------------",
   .consolePrint ("PM 1.0: " ++ toString d.pm10_standard ++ "\tPM2.5: "
     ++ toString d.pm25_standard ++ "\tPM10: " ++ toString d.pm100_standard),
   .consolePrint "Concentration Units (environmental)",
   .consolePrint "---------------------------------------",
   .consolePrint ("PM 1.0: " ++ toString d.pm10_env ++ "\tPM2.5: "
     ++ toString d.pm25_env ++ "\tPM10: " ++ toString d.pm100_env),
   .consolePrint "---------------------------------------",
   .consolePrint ("Particles > 0.3um / 0.1L air: " ++ toString d.particles_03um),
   .consolePrint ("Particles > 0.5um / 0.1L air: " ++ toString d.particles_05um),
   .consolePrint ("Particles > 1.0um / 0.1L air: " ++ toString d.particles_10um),
   .consolePrint ("Particles > 2.5um / 0.1L air: " ++ toString d.particles_25um),
   .consolePrint ("Particles > 5.0um / 0.1L air: " ++ toString d.particles_50um),
   .consolePrint ("Particles > 10 um / 0.1L air: " ++ toString d.particles_100um),
   .consolePrint "---------------------------------------"]

/-- `read_particulates(sensor, quiet)` (lines 67-105). `sensor` is the outcome
of `sensor.read()` this tick. Only `RuntimeError` is caught (lines 74-79);
any other exception propagates. On success the twelve dict items are set as
span attributes with spaces in keys replaced by underscores (lines 104-105). -/
def read_particulates (sensor : PyResult AQData) (quiet : Bool) :
    PyResult (List Event) :=
  match sensor with
  | .error .runtimeError =>
      .ok [.consolePrint "Unable to read from sensor, retrying..."]
  | .error e => .error e
  | .ok aqdata =>
      .ok ((if quiet = false then aqConsoleBlock aqdata else [])
        ++ aqdata.items.map fun kv => .setAttr (underscoreKey kv.1) (.num kv.2))

/-! ## SGP30 volatile-organic sensor (`read_volatiles`, lines 108-142) -/

/-- One tick's worth of SGP30 property reads: the two measurement properties
and the two internal calibration baselines. All are integers on the device. -/
structure SGP30Data where
  eCO2 : ℕ
  TVOC : ℕ
  baseline_eCO2 : ℕ
  baseline_TVOC : ℕ
deriving DecidableEq, Repr

/-- Python `f"0x{v:x}"`: lowercase hexadecimal with `0x` prefix (lines 134,
138-139). -/
def hexStr (n : ℕ) : String := "0x" ++ (Nat.toDigits 16 n).asString

/-- Body of `read_volatiles(sensor, baseline_counter, quiet)` (lines 108-142)
once the property reads have succeeded. Increments the counter, emits the two
measurement attributes, and when the incremented counter exceeds
`BASELINE_FREQUENCY` resets it to zero and additionally emits the two baseline
values as hex strings. Returns the new counter with the event trace. -/
def read_volatiles_body (s : SGP30Data) (baseline_counter : ℕ) (quiet : Bool) :
    ℕ × List Event :=
  let bc := baseline_counter + 1
  let evs :=
    (if quiet = false then
      [Event.consolePrint ("eCO2 = " ++ toString s.eCO2 ++ " ppm \t TVOC = "
        ++ toString s.TVOC ++ " ppb")]
     else [])
    ++ [Event.setAttr "eCO2_ppm" (.num s.eCO2),
        Event.setAttr "TVOC_ppb" (.num s.TVOC)]
  if BASELINE_FREQUENCY < bc then
    (0, evs
      ++ (if quiet = false then
            [Event.consolePrint ("Baseline values: eCO2 = "
              ++ hexStr s.baseline_eCO2 ++ ", TVOC = " ++ hexStr s.baseline_TVOC)]
          else [])
      ++ [Event.setAttr "baseline_eCO2" (.str (hexStr s.baseline_eCO2)),
          Event.setAttr "baseline_TVOC" (.str (hexStr s.baseline_TVOC))])
  else
    (bc, evs)

/-- `read_volatiles` including the possibility that a property read raises:
there is no try/except in this function, so an exception propagates. -/
def read_volatiles (sensor : PyResult SGP30Data) (baseline_counter : ℕ)
    (quiet : Bool) : PyResult (ℕ × List Event) :=
  match sensor with
  | .error e => .error e
  | .ok s => .ok (read_volatiles_body s baseline_counter quiet)

/-! ## SCD30 direct-CO2 sensor (`read_real_co2`, lines 145-172) -/

/-- One tick's worth of SCD30 state: the `data_available` flag as a function
of how many times it has been polled this tick, and the measurement
properties read once the flag is true. -/
structure SCD30Data where
  data_available : ℕ → Bool
  CO2 : ℚ
  temperature : ℚ
  relative_humidity : ℚ

/-- The console line and four attributes emitted once `data_available` is
true (lines 154-166). -/
def scd30Emit (s : SCD30Data) (quiet : Bool) : List Event :=
  (if quiet = false then
    [Event.consolePrint ("CO2: " ++ toString s.CO2 ++ " PPM / Temp: "
      ++ toString s.temperature ++ " C / Humidity: "
      ++ toString s.relative_humidity ++ "%")]
   else [])
  ++ [Event.setAttr "scd30.actual_CO2" (.num s.CO2),
      Event.setAttr "scd30.temp_C" (.num s.temperature),
      Event.setAttr "scd30.temp_F" (.num (fahrenheit s.temperature)),
      Event.setAttr "scd30.rel_humidity" (.num (pyRound s.relative_humidity))]

/-- The `for _i in range(30)` polling loop of `read_real_co2`, with `fuel`
iterations remaining and `i` polls already made: check `data_available`; if
true, emit and return; otherwise `time.sleep(0.5)` and continue (lines
152-172). -/
def read_real_co2_loop (s : SCD30Data) (quiet : Bool) : ℕ → ℕ → List Event
  | _, 0 => []
  | i, fuel + 1 =>
    if s.data_available i then
      Event.pollDataReady :: scd30Emit s quiet
    else
      Event.pollDataReady :: Event.sleep (1/2)
        :: read_real_co2_loop s quiet (i + 1) fuel

/-- `read_real_co2(sensor, quiet)` (lines 145-172): poll `data_available` up
to 30 times, emitting on the first ready poll; if never ready, return having
emitted nothing. -/
def read_real_co2 (sensor : PyResult SCD30Data) (quiet : Bool) :
    PyResult (List Event) :=
  match sensor with
  | .error e => .error e
  | .ok s => .ok (read_real_co2_loop s quiet 0 30)

/-! ## MS8607 PHT sensor (`read_pht`, lines 175-192) -/

/-- One tick's worth of MS8607 property reads. -/
structure MS8607Data where
  pressure : ℚ
  temperature : ℚ
  relative_humidity : ℚ
deriving DecidableEq, Repr

/-- Body of `read_pht(sensor, quiet)` (lines 175-192) once the property reads
have succeeded: three console lines when not quiet, then four attributes. -/
def read_pht_body (s : MS8607Data) (quiet : Bool) : List Event :=
  (if quiet = false then
    [Event.consolePrint ("Pressure: " ++ toString s.pressure ++ " hPa"),
     Event.consolePrint ("Temperature: " ++ toString s.temperature ++ " C"),
     Event.consolePrint ("Humidity: " ++ toString s.relative_humidity ++ " % rH")]
   else [])
  ++ [Event.setAttr "ms8607.pressure_hPa" (.num s.pressure),
      Event.setAttr "ms8607.temp_C" (.num s.temperature),
      Event.setAttr "ms8607.temp_F" (.num (fahrenheit s.temperature)),
      Event.setAttr "ms8607.rel_humidity" (.num (pyRound s.relative_humidity))]

/-- `read_pht` including exception propagation: no try/except here either. -/
def read_pht (sensor : PyResult MS8607Data) (quiet : Bool) :
    PyResult (List Event) :=
  match sensor with
  | .error e => .error e
  | .ok s => .ok (read_pht_body s quiet)

/-! ## Configuration (`read_config`, `run` lines 260-271, `init_electronics`
line 209) -/

/-- The recognized top-level configuration keys, each `Option` because the
YAML mapping may omit it. `sample_frequency` is an integer number of seconds. -/
structure Config where
  sample_frequency : Option ℤ
  co2_baseline : Option ℕ
  tvoc_baseline : Option ℕ
  location : Option String
  quiet : Option Bool
  sensors : Option (List String)
deriving DecidableEq, Repr

/-- Python `config.get(key) or default` for an integer value: `None` and `0`
are falsy, anything else is returned as is. -/
def getOrInt (v : Option ℤ) (d : ℤ) : ℤ :=
  match v with
  | none => d
  | some x => if x = 0 then d else x

/-- Python `config.get(key) or default` for a string value: `None` and `""`
are falsy. -/
def getOrStr (v : Option String) (d : String) : String :=
  match v with
  | none => d
  | some x => if x = "" then d else x

/-- Python `config.get(key) or default` for a boolean value: `None` and
`False` are falsy. -/
def getOrBool (v : Option Bool) (d : Bool) : Bool :=
  match v with
  | none => d
  | some x => if x = false then d else x

/-- Python `config.get(key) or default` for a list value: `None` and `[]` are
falsy. -/
def getOrList (v : Option (List String)) (d : List String) : List String :=
  match v with
  | none => d
  | some x => if x = [] then d else x

/-- `location = config.get(CONFIG_LOCATION) or "unknown"` (line 269). -/
def configLoc (c : Config) : String := getOrStr c.location "unknown"

/-- `quiet = config.get(CONFIG_QUIET_MODE) or False` (line 270). -/
def configQuiet (c : Config) : Bool := getOrBool c.quiet false

/-- `sleep_seconds = config.get(CONFIG_SAMPLE_FREQUENCY) or BASELINE_FREQUENCY`
(line 271). -/
def configSleepSeconds (c : Config) : ℤ :=
  getOrInt c.sample_frequency (BASELINE_FREQUENCY : ℕ)

/-- `sensors = config.get(CONFIG_SENSORS) or DEFAULT_SENSORS`
(`init_electronics`, line 209). -/
def configSensors (c : Config) : List String := getOrList c.sensors DEFAULT_SENSORS

/-! ## Sensor initialization and the main loop (`init_electronics`, `run`) -/

/-- The per-tick behaviour of the four physical devices on the bus: for each
device, what its reads would yield on tick `t` if the driver is constructed.
Each outcome is a `PyResult` because any driver property read may raise. -/
structure Devices where
  pm25 : ℕ → PyResult AQData
  sgp30 : ℕ → PyResult SGP30Data
  scd30 : ℕ → PyResult SCD30Data
  ms8607 : ℕ → PyResult MS8607Data

/-- The sensor handles `run` works with: `None` when the sensor kind is not
in the configured list (`init_electronics`, lines 211-247). -/
structure Env where
  pm25 : Option (ℕ → PyResult AQData)
  sgp30 : Option (ℕ → PyResult SGP30Data)
  scd30 : Option (ℕ → PyResult SCD30Data)
  ms8607 : Option (ℕ → PyResult MS8607Data)

/-- `init_electronics(config)` (lines 195-249), restricted to its observable
output: each driver handle is constructed exactly when its sensor kind is in
the configured sensors list. -/
def init_electronics (config : Config) (dev : Devices) : Env :=
  let sensors := configSensors config
  { pm25 := if SENSOR_PM25 ∈ sensors then some dev.pm25 else none
    sgp30 := if SENSOR_SGP30 ∈ sensors then some dev.sgp30 else none
    scd30 := if SENSOR_SCD30 ∈ sensors then some dev.scd30 else none
    ms8607 := if SENSOR_MS8607 ∈ sensors then some dev.ms8607 else none }

/-- `sleep = max(sleep_seconds - (time.time()-start), 1)` (line 301). -/
def computeSleep (sleep_seconds elapsed : ℚ) : ℚ :=
  max (sleep_seconds - elapsed) 1

/-- `if pm25 is not None: read_particulates(pm25, quiet)` (lines 287-288):
the particulate stage of one tick. -/
def tickPM (env : Env) (quiet : Bool) (t : ℕ) : PyResult (List Event) :=
  match env.pm25 with
  | none => .ok []
  | some r => read_particulates (r t) quiet

/-- `if sgp30 is not None: baseline_counter = read_volatiles(...)` (lines
290-291): the volatile-organic stage of one tick. When the sensor is absent
the counter is unchanged. -/
def tickVol (env : Env) (quiet : Bool) (bc t : ℕ) : PyResult (ℕ × List Event) :=
  match env.sgp30 with
  | none => .ok (bc, [])
  | some r => read_volatiles (r t) bc quiet

/-- `if scd30 is not None: read_real_co2(scd30, quiet)` (lines 293-294). -/
def tickCO2 (env : Env) (quiet : Bool) (t : ℕ) : PyResult (List Event) :=
  match env.scd30 with
  | none => .ok []
  | some r => read_real_co2 (r t) quiet

/-- `if ms8607 is not None: read_pht(ms8607, quiet)` (lines 296-297). -/
def tickPHT (env : Env) (quiet : Bool) (t : ℕ) : PyResult (List Event) :=
  match env.ms8607 with
  | none => .ok []
  | some r => read_pht (r t) quiet

/-- One tick of the `while True` loop body (lines 276-297): set the location
attribute, then read each present sensor in order. An exception escaping any
read aborts the tick (and hence the loop); only `read_particulates` guards
internally, and only against `RuntimeError`. Returns the new baseline counter
and the tick's event trace. -/
def tick (env : Env) (quiet : Bool) (loc : String) (bc : ℕ) (t : ℕ) :
    PyResult (ℕ × List Event) := do
  let locEvs := [Event.setAttr "location" (.str loc)]
  let pmEvs ← tickPM env quiet t
  let vres ← tickVol env quiet bc t
  let cEvs ← tickCO2 env quiet t
  let pEvs ← tickPHT env quiet t
  pure (vres.1, locEvs ++ pmEvs ++ vres.2 ++ cEvs ++ pEvs)

/-- `n` iterations of the `while True` loop (lines 276-302) starting at tick
`t` with baseline counter `bc`: each tick is followed by
`time.sleep(max(sleep_seconds - elapsed, 1))`, where `elapsed k` is the wall
time tick `k` took. The real loop never stops; `n` ticks of it are modelled. -/
def runLoop (env : Env) (quiet : Bool) (loc : String) (sleep_seconds : ℚ)
    (elapsed : ℕ → ℚ) : ℕ → ℕ → ℕ → PyResult (ℕ × List Event)
  | bc, _, 0 => pure (bc, [])
  | bc, t, n + 1 => do
    let r ← tick env quiet loc bc t
    let rest ← runLoop env quiet loc sleep_seconds elapsed r.1 (t + 1) n
    pure (rest.1, r.2 ++ [Event.sleep (computeSleep sleep_seconds (elapsed t))]
      ++ rest.2)

/-- The observable trace of `run()` (lines 252-302) for the first `n` ticks:
the `@tracer.start_as_current_span("sniff")` decorator creates one span when
`run` is entered, and the loop then runs inside it. The span is never ended
while the loop runs (the loop never returns normally), so no `spanEnd` event
appears. -/
def run_span_trace (config : Config) (dev : Devices) (elapsed : ℕ → ℚ)
    (n : ℕ) : PyResult (List Event) := do
  let env := init_electronics config dev
  let r ← runLoop env (configQuiet config) (configLoc config)
    (configSleepSeconds config) elapsed 0 0 n
  pure (Event.spanCreate "sniff" :: r.2)

/-! ## Startup (module level lines 46-52, `read_config` lines 55-64, `run`
lines 260-263) -/

/-- What is on disk at the configuration path: `none` when the file does not
exist, otherwise the result of `YAML().load` on it (`none` for an empty
document). -/
abbrev ConfigFile := Option (Option Config)

/-- `read_config()` (lines 55-64): if the path exists, load it; otherwise
return `None`. An empty YAML document also loads as `None`. -/
def read_config (fc : ConfigFile) : Option Config :=
  match fc with
  | none => none
  | some loaded => loaded

/-- How startup can go: print usage and `sys.exit(1)` (lines 47-49), print
a message and `sys.exit(1)` (lines 261-263), or enter the sensor loop. -/
inductive StartAction where
  | exitUsage
  | exitNoConfig
  | enterLoop (c : Config)
deriving DecidableEq, Repr

/-- The startup logic: the argv length check at module level, then the
configuration check at the top of `run()`. `argc` counts `sys.argv` entries
including the program name. -/
def startup (argc : ℕ) (fc : ConfigFile) : StartAction :=
  if argc < 2 then .exitUsage
  else
    match read_config fc with
    | none => .exitNoConfig
    | some c => .enterLoop c

/-- The process exit status produced by a startup action, `none` when the
process keeps running. Both exit paths call `sys.exit(1)`. -/
def startExitCode (a : StartAction) : Option ℕ :=
  match a with
  | .exitUsage => some 1
  | .exitNoConfig => some 1
  | .enterLoop _ => none

/-- No sensor read raises an exception the loop does not guard against:
particulate reads may still raise `RuntimeError` (which `read_particulates`
catches), all other reads succeed. -/
def NoThrow (env : Env) : Prop :=
  (∀ r, env.pm25 = some r → ∀ t, r t ≠ .error .other) ∧
  (∀ r, env.sgp30 = some r → ∀ t, ∃ s, r t = .ok s) ∧
  (∀ r, env.scd30 = some r → ∀ t, ∃ s, r t = .ok s) ∧
  (∀ r, env.ms8607 = some r → ∀ t, ∃ s, r t = .ok s)

/-! ## Derived definitions used by the verification -/

/-- Baseline counter value after `N` invocations of the volatile-organic read
starting from zero, where invocation `t` reads sensor state `s t` and no
invocation raises. -/
def volCounterAfter (s : ℕ → SGP30Data) (q : Bool) : ℕ → ℕ
  | 0 => 0
  | n + 1 => (read_volatiles_body (s n) (volCounterAfter s q n) q).1

/-- The trace of a successful computation, `[]` for an aborted one. -/
def traceOf (r : PyResult (List Event)) : List Event :=
  match r with
  | .ok evs => evs
  | .error _ => []

/-- Did the computation finish without an uncaught exception? -/
def pyOk {α : Type} (r : PyResult α) : Bool :=
  match r with
  | .ok _ => true
  | .error _ => false

/-! ## Concrete example data (used in witnesses and counterexamples) -/

/-- A concrete particulate reading. -/
def aqd1 : AQData := ⟨1, 2, 3, 4, 5, 6, 7, 8, 9, 10, 11, 12⟩

/-- A concrete SGP30 reading. -/
def sgpd1 : SGP30Data := ⟨400, 10, 35187, 35502⟩

/-- An SCD30 whose data-ready flag is already true at the first poll. -/
def scdReady : SCD30Data := ⟨fun _ => true, 600, 20, 55/2⟩

/-- An SCD30 whose data-ready flag first becomes true at the fourth poll. -/
def scdReady3 : SCD30Data := ⟨fun i => i == 3, 600, 20, 55/2⟩

/-- An SCD30 whose data-ready flag never becomes true. -/
def scdNever : SCD30Data := ⟨fun _ => false, 600, 20, 55/2⟩

/-- A concrete MS8607 reading. -/
def phtd1 : MS8607Data := ⟨1013, 20, 99/2⟩

/-- Devices whose reads always succeed with the readings above. -/
def devOk : Devices :=
  ⟨fun _ => .ok aqd1, fun _ => .ok sgpd1, fun _ => .ok scdReady, fun _ => .ok phtd1⟩

/-- Devices whose SGP30 property reads raise a non-`RuntimeError` exception;
the other devices behave like `devOk`. -/
def devBad : Devices :=
  ⟨fun _ => .ok aqd1, fun _ => .error .other, fun _ => .ok scdReady, fun _ => .ok phtd1⟩

/-- A configuration enabling all four sensors, quiet, sampling every 5 s. -/
def cfgAll : Config :=
  ⟨some 5, none, none, some "lab", some true,
   some [SENSOR_PM25, SENSOR_SGP30, SENSOR_SCD30, SENSOR_MS8607]⟩

/-- The configuration read from an empty mapping: every key absent. -/
def cfgEmpty : Config := ⟨none, none, none, none, none, none⟩

/-- The sensor handles with no sensor configured at all. -/
def envNone : Env := ⟨none, none, none, none⟩

/-! ## Helper lemmas: counters distribute over append -/

theorem attrKeyCount_append (k : String) (l1 l2 : List Event) :
    attrKeyCount k (l1 ++ l2) = attrKeyCount k l1 + attrKeyCount k l2 := by
  induction l1 with
  | nil => simp [attrKeyCount]
  | cons e es ih => cases e <;> simp [attrKeyCount, ih] <;> split_ifs <;> omega

theorem attrCount_append (l1 l2 : List Event) :
    attrCount (l1 ++ l2) = attrCount l1 + attrCount l2 := by
  induction l1 with
  | nil => simp [attrCount]
  | cons e es ih => cases e <;> simp [attrCount, ih] <;> omega

theorem spanCreateCount_append (l1 l2 : List Event) :
    spanCreateCount (l1 ++ l2) = spanCreateCount l1 + spanCreateCount l2 := by
  induction l1 with
  | nil => simp [spanCreateCount]
  | cons e es ih => cases e <;> simp [spanCreateCount, ih] <;> omega

theorem spanEndCount_append (l1 l2 : List Event) :
    spanEndCount (l1 ++ l2) = spanEndCount l1 + spanEndCount l2 := by
  induction l1 with
  | nil => simp [spanEndCount]
  | cons e es ih => cases e <;> simp [spanEndCount, ih] <;> omega

theorem pollCount_append (l1 l2 : List Event) :
    pollCount (l1 ++ l2) = pollCount l1 + pollCount l2 := by
  induction l1 with
  | nil => simp [pollCount]
  | cons e es ih => cases e <;> simp [pollCount, ih] <;> omega

theorem totalSleep_append (l1 l2 : List Event) :
    totalSleep (l1 ++ l2) = totalSleep l1 + totalSleep l2 := by
  induction l1 with
  | nil => simp [totalSleep]
  | cons e es ih => cases e <;> simp [totalSleep, ih] <;> ring

theorem attrsOf_append (l1 l2 : List Event) :
    attrsOf (l1 ++ l2) = attrsOf l1 ++ attrsOf l2 := by
  induction l1 with
  | nil => simp [attrsOf]
  | cons e es ih => cases e <;> simp [attrsOf, ih]

/-! ## Helper lemmas: the sensor read functions emit no location attribute
and no span events -/

theorem read_particulates_clean (res : PyResult AQData) (q : Bool)
    (evs : List Event) (h : read_particulates res q = .ok evs) :
    attrKeyCount "location" evs = 0 ∧ spanCreateCount evs = 0 ∧
      spanEndCount evs = 0 := by
  unfold read_particulates at h
  split at h
  · cases h
    simp +decide [attrKeyCount, spanCreateCount, spanEndCount]
  · cases h
  · cases h
    cases q <;>
      simp +decide [attrKeyCount_append, spanCreateCount_append,
        spanEndCount_append, aqConsoleBlock, AQData.items, attrKeyCount,
        spanCreateCount, spanEndCount]

theorem read_volatiles_body_clean (s : SGP30Data) (bc : ℕ) (q : Bool) :
    attrKeyCount "location" (read_volatiles_body s bc q).2 = 0 ∧
      spanCreateCount (read_volatiles_body s bc q).2 = 0 ∧
      spanEndCount (read_volatiles_body s bc q).2 = 0 := by
  unfold read_volatiles_body
  split_ifs <;>
    simp +decide [apply_ite Prod.snd, apply_ite (attrKeyCount "location"),
      apply_ite spanCreateCount, apply_ite spanEndCount, attrKeyCount,
      spanCreateCount, spanEndCount]

theorem scd30Emit_clean (s : SCD30Data) (q : Bool) :
    attrKeyCount "location" (scd30Emit s q) = 0 ∧
      spanCreateCount (scd30Emit s q) = 0 ∧ spanEndCount (scd30Emit s q) = 0 := by
  cases q <;>
    simp +decide [scd30Emit, attrKeyCount, spanCreateCount, spanEndCount]

theorem read_real_co2_loop_clean (s : SCD30Data) (q : Bool) (i fuel : ℕ) :
    attrKeyCount "location" (read_real_co2_loop s q i fuel) = 0 ∧
      spanCreateCount (read_real_co2_loop s q i fuel) = 0 ∧
      spanEndCount (read_real_co2_loop s q i fuel) = 0 := by
  induction fuel generalizing i with
  | zero => simp [read_real_co2_loop, attrKeyCount, spanCreateCount, spanEndCount]
  | succ fuel ih =>
    unfold read_real_co2_loop
    split
    · have h := scd30Emit_clean s q
      simp [attrKeyCount, spanCreateCount, spanEndCount, h.1, h.2.1, h.2.2]
    · have h := ih (i + 1)
      simp [attrKeyCount, spanCreateCount, spanEndCount, h.1, h.2.1, h.2.2]

theorem read_pht_body_clean (s : MS8607Data) (q : Bool) :
    attrKeyCount "location" (read_pht_body s q) = 0 ∧
      spanCreateCount (read_pht_body s q) = 0 ∧
      spanEndCount (read_pht_body s q) = 0 := by
  cases q <;>
    simp +decide [read_pht_body, attrKeyCount, spanCreateCount, spanEndCount]

/-- The particulate stage of a completed tick has no location attribute and
no span events. -/
theorem tickPM_clean (env : Env) (q : Bool) (t : ℕ) (evs : List Event)
    (h : tickPM env q t = .ok evs) :
    attrKeyCount "location" evs = 0 ∧ spanCreateCount evs = 0 ∧
      spanEndCount evs = 0 := by
  unfold tickPM at h
  split at h
  · cases h
    simp [attrKeyCount, spanCreateCount, spanEndCount]
  · rename_i r hr
    exact read_particulates_clean (r t) q evs h

/-- The volatile-organic stage of a completed tick has no location attribute
and no span events. -/
theorem tickVol_clean (env : Env) (q : Bool) (bc t : ℕ) (res : ℕ × List Event)
    (h : tickVol env q bc t = .ok res) :
    attrKeyCount "location" res.2 = 0 ∧ spanCreateCount res.2 = 0 ∧
      spanEndCount res.2 = 0 := by
  unfold tickVol at h
  split at h
  · cases h
    simp [attrKeyCount, spanCreateCount, spanEndCount]
  · rename_i r hr
    unfold read_volatiles at h
    split at h
    · cases h
    · rename_i s hs
      cases h
      exact read_volatiles_body_clean s bc q

/-- The direct-CO2 stage of a completed tick has no location attribute and no
span events. -/
theorem tickCO2_clean (env : Env) (q : Bool) (t : ℕ) (evs : List Event)
    (h : tickCO2 env q t = .ok evs) :
    attrKeyCount "location" evs = 0 ∧ spanCreateCount evs = 0 ∧
      spanEndCount evs = 0 := by
  unfold tickCO2 at h
  split at h
  · cases h
    simp [attrKeyCount, spanCreateCount, spanEndCount]
  · rename_i r hr
    unfold read_real_co2 at h
    split at h
    · cases h
    · rename_i s hs
      cases h
      exact read_real_co2_loop_clean s q 0 30

/-- The PHT stage of a completed tick has no location attribute and no span
events. -/
theorem tickPHT_clean (env : Env) (q : Bool) (t : ℕ) (evs : List Event)
    (h : tickPHT env q t = .ok evs) :
    attrKeyCount "location" evs = 0 ∧ spanCreateCount evs = 0 ∧
      spanEndCount evs = 0 := by
  unfold tickPHT at h
  split at h
  · cases h
    simp [attrKeyCount, spanCreateCount, spanEndCount]
  · rename_i r hr
    unfold read_pht at h
    split at h
    · cases h
    · rename_i s hs
      cases h
      exact read_pht_body_clean s q

/-- Any tick that completes sets the location attribute exactly once and
creates or ends no span. -/
theorem tick_ok_clean (env : Env) (q : Bool) (loc : String) (bc t bc2 : ℕ)
    (evs : List Event) (h : tick env q loc bc t = .ok (bc2, evs)) :
    attrKeyCount "location" evs = 1 ∧ spanCreateCount evs = 0 ∧
      spanEndCount evs = 0 := by
  simp only [tick, bind, Except.bind, pure, Except.pure] at h
  split at h
  · cases h
  · rename_i pmEvs hpm
    split at h
    · cases h
    · rename_i vres hv
      split at h
      · cases h
      · rename_i cEvs hc
        split at h
        · cases h
        · rename_i pEvs hp
          cases h
          have h1 := tickPM_clean env q t pmEvs hpm
          have h2 := tickVol_clean env q bc t vres hv
          have h3 := tickCO2_clean env q t cEvs hc
          have h4 := tickPHT_clean env q t pEvs hp
          simp +decide [attrKeyCount_append, spanCreateCount_append,
            spanEndCount_append, attrKeyCount, spanCreateCount, spanEndCount,
            h1.1, h1.2.1, h1.2.2, h2.1, h2.2.1, h2.2.2,
            h3.1, h3.2.1, h3.2.2, h4.1, h4.2.1, h4.2.2]

/-- Any `n` completed loop iterations set the location attribute exactly `n`
times and create or end no span. -/
theorem runLoop_ok_clean (env : Env) (q : Bool) (loc : String)
    (ss : ℚ) (el : ℕ → ℚ) (bc t n bc2 : ℕ) (evs : List Event)
    (h : runLoop env q loc ss el bc t n = .ok (bc2, evs)) :
    attrKeyCount "location" evs = n ∧ spanCreateCount evs = 0 ∧
      spanEndCount evs = 0 := by
  induction n generalizing bc t evs with
  | zero =>
    simp only [runLoop, pure, Except.pure] at h
    cases h
    simp [attrKeyCount, spanCreateCount, spanEndCount]
  | succ n ih =>
    simp only [runLoop, bind, Except.bind, pure, Except.pure] at h
    split at h
    · cases h
    · rename_i r hr
      split at h
      · cases h
      · rename_i rest hrest
        cases h
        have h1 := tick_ok_clean env q loc bc t r.1 r.2 hr
        have h2 := ih r.1 (t + 1) rest.2 hrest
        simp [attrKeyCount_append, spanCreateCount_append, spanEndCount_append,
          attrKeyCount, spanCreateCount, spanEndCount, h1.1, h1.2.1, h1.2.2,
          h2.1, h2.2.1, h2.2.2]
        omega

/-! ## Baseline counter lemmas (claim C2) -/

/-- The counter returned by one volatile-organic read: increment, and reset
to zero once the incremented value exceeds `BASELINE_FREQUENCY`. -/
theorem read_volatiles_body_fst (s : SGP30Data) (bc : ℕ) (q : Bool) :
    (read_volatiles_body s bc q).1 =
      if BASELINE_FREQUENCY < bc + 1 then 0 else bc + 1 := by
  unfold read_volatiles_body
  split_ifs <;> simp [apply_ite Prod.fst] <;> omega

/-- The baseline-eCO2 attribute is emitted exactly when the incremented
counter exceeds the threshold. -/
theorem read_volatiles_body_baseline_eCO2 (s : SGP30Data) (bc : ℕ) (q : Bool) :
    attrKeyCount "baseline_eCO2" (read_volatiles_body s bc q).2 =
      if BASELINE_FREQUENCY < bc + 1 then 1 else 0 := by
  unfold read_volatiles_body
  split_ifs <;>
    simp +decide [apply_ite Prod.snd, apply_ite (attrKeyCount "baseline_eCO2"),
      attrKeyCount] <;> omega

/-- The baseline-TVOC attribute is emitted exactly when the incremented
counter exceeds the threshold. -/
theorem read_volatiles_body_baseline_TVOC (s : SGP30Data) (bc : ℕ) (q : Bool) :
    attrKeyCount "baseline_TVOC" (read_volatiles_body s bc q).2 =
      if BASELINE_FREQUENCY < bc + 1 then 1 else 0 := by
  unfold read_volatiles_body
  split_ifs <;>
    simp +decide [apply_ite Prod.snd, apply_ite (attrKeyCount "baseline_TVOC"),
      attrKeyCount] <;> omega

/-- When the incremented counter exceeds the threshold, the two baseline
values appear in the trace as hexadecimal strings. -/
theorem read_volatiles_body_baseline_mem (s : SGP30Data) (bc : ℕ) (q : Bool)
    (h : BASELINE_FREQUENCY < bc + 1) :
    Event.setAttr "baseline_eCO2" (.str (hexStr s.baseline_eCO2))
        ∈ (read_volatiles_body s bc q).2 ∧
      Event.setAttr "baseline_TVOC" (.str (hexStr s.baseline_TVOC))
        ∈ (read_volatiles_body s bc q).2 := by
  unfold read_volatiles_body
  simp [h]

/-- The baseline counter after `N` reads equals `N mod 61`. -/
theorem volCounterAfter_mod (s : ℕ → SGP30Data) (q : Bool) (N : ℕ) :
    volCounterAfter s q N = N % 61 := by
  induction N with
  | zero => simp [volCounterAfter]
  | succ n ih =>
    unfold volCounterAfter
    rw [read_volatiles_body_fst, ih]
    unfold BASELINE_FREQUENCY
    split_ifs <;> omega

/-- Claim C2: starting from a counter of zero, after `N` volatile-organic
reads (none of which raises) the baseline counter equals `N mod 61`, and the
next read (whose pre-increment counter is `N mod 61`) emits the two internal
baseline values, formatted as hexadecimal strings, exactly when that
pre-increment counter equals 60. -/
theorem volatiles_baseline_counter_C2 (s : ℕ → SGP30Data) (q : Bool) (N : ℕ) :
    volCounterAfter s q N = N % 61 ∧
    (attrKeyCount "baseline_eCO2"
        (read_volatiles_body (s N) (volCounterAfter s q N) q).2 =
      if N % 61 = 60 then 1 else 0) ∧
    (attrKeyCount "baseline_TVOC"
        (read_volatiles_body (s N) (volCounterAfter s q N) q).2 =
      if N % 61 = 60 then 1 else 0) ∧
    (N % 61 = 60 →
      Event.setAttr "baseline_eCO2" (.str (hexStr (s N).baseline_eCO2))
          ∈ (read_volatiles_body (s N) (volCounterAfter s q N) q).2 ∧
        Event.setAttr "baseline_TVOC" (.str (hexStr (s N).baseline_TVOC))
          ∈ (read_volatiles_body (s N) (volCounterAfter s q N) q).2) := by
  have hc := volCounterAfter_mod s q N
  have hlt : N % 61 < 61 := Nat.mod_lt _ (by norm_num)
  refine ⟨hc, ?_, ?_, ?_⟩
  · rw [read_volatiles_body_baseline_eCO2, hc]
    unfold BASELINE_FREQUENCY
    split_ifs <;> omega
  · rw [read_volatiles_body_baseline_TVOC, hc]
    unfold BASELINE_FREQUENCY
    split_ifs <;> omega
  · intro h60
    exact read_volatiles_body_baseline_mem (s N) _ q
      (by rw [hc, h60]; unfold BASELINE_FREQUENCY; omega)

/-- Witness for C2 at `N = 60`: the 61st read has pre-increment counter 60
and emits the baseline attributes. -/
theorem volatiles_baseline_counter_C2_witness :
    volCounterAfter (fun _ => sgpd1) false 60 = 60 ∧
    Event.setAttr "baseline_eCO2" (.str (hexStr sgpd1.baseline_eCO2))
        ∈ (read_volatiles_body sgpd1 (volCounterAfter (fun _ => sgpd1) false 60)
            false).2 := by
  have h := volatiles_baseline_counter_C2 (fun _ => sgpd1) false 60
  exact ⟨h.1, (h.2.2.2 (by decide)).1⟩

/-! ## Sleep pacing (claim C4) -/

/-- Claim C4: the sleep before the next tick is the configured interval minus
the tick's elapsed wall time, floored at 1 second. Concretely, one loop
iteration with interval 5 and elapsed time 1 ends in a 4-second sleep; the
sleep is always at least 1; it equals interval - elapsed whenever that is at
least 1, and is exactly 1 (never zero or negative) otherwise, including when
the tick takes longer than the interval. -/
theorem sleep_pacing_C4 :
    runLoop envNone true "unknown" 5 (fun _ => 1) 0 0 1 =
      .ok (0, [Event.setAttr "location" (.str "unknown"), Event.sleep 4]) ∧
    (∀ ss el : ℚ, 1 ≤ computeSleep ss el) ∧
    (∀ ss el : ℚ, 1 ≤ ss - el → computeSleep ss el = ss - el) ∧
    (∀ ss el : ℚ, ss - el ≤ 1 → computeSleep ss el = 1) ∧
    (∀ ss el : ℚ, ss < el → computeSleep ss el = 1) := by
  refine ⟨?_, fun ss el => le_max_right _ _,
    fun ss el h => max_eq_left h, fun ss el h => max_eq_right h,
    fun ss el h => max_eq_right (by linarith)⟩
  simp [runLoop, tick, tickPM, tickVol, tickCO2, tickPHT, envNone, bind,
    Except.bind, pure, Except.pure, computeSleep]
  norm_num

/-- Witness for C4 at concrete inputs. -/
theorem sleep_pacing_C4_witness :
    runLoop envNone true "unknown" 5 (fun _ => 1) 0 0 1 =
      .ok (0, [Event.setAttr "location" (.str "unknown"), Event.sleep 4]) ∧
    1 ≤ computeSleep 5 7 ∧ computeSleep 10 3 = 10 - 3 ∧
    computeSleep 5 (9/2) = 1 ∧ computeSleep 5 7 = 1 := by
  have h := sleep_pacing_C4
  exact ⟨h.1, h.2.1 5 7, h.2.2.1 10 3 (by norm_num),
    h.2.2.2.1 5 (9/2) (by norm_num), h.2.2.2.2 5 7 (by norm_num)⟩

/-! ## Particulate transient failure (claim C5) -/

/-- Claim C5: a `RuntimeError` from the particulate sensor's underlying read
results in exactly one console line (the retry notice), zero emitted
telemetry fields, no sleeping (no backoff), and a normal return (the
exception does not escape), for either quiet setting. -/
theorem particulate_retry_C5 (q : Bool) :
    read_particulates (.error .runtimeError) q =
      .ok [.consolePrint "Unable to read from sensor, retrying..."] ∧
    attrCount (traceOf (read_particulates (.error .runtimeError) q)) = 0 ∧
    totalSleep (traceOf (read_particulates (.error .runtimeError) q)) = 0 := by
  refine ⟨rfl, ?_, ?_⟩ <;> simp [read_particulates, traceOf, attrCount, totalSleep]

/-! ## Configuration defaults (claims C7 and C10) -/

/-- Claim C7: every omitted optional key falls back to its documented
default: sensors to exactly the particulate + volatile-organic pair (so
`init_electronics` constructs exactly those two drivers), the sample
interval to 60 seconds, the location label to "unknown", and the quiet flag
to false. -/
theorem config_defaults_C7 (c : Config) (dev : Devices) :
    (c.sensors = none →
      configSensors c = [SENSOR_PM25, SENSOR_SGP30] ∧
      (init_electronics c dev).pm25 = some dev.pm25 ∧
      (init_electronics c dev).sgp30 = some dev.sgp30 ∧
      (init_electronics c dev).scd30 = none ∧
      (init_electronics c dev).ms8607 = none) ∧
    (c.sample_frequency = none → configSleepSeconds c = 60) ∧
    (c.location = none → configLoc c = "unknown") ∧
    (c.quiet = none → configQuiet c = false) := by
  refine ⟨fun h => ?_, fun h => ?_, fun h => ?_, fun h => ?_⟩
  · refine ⟨?_, ?_, ?_, ?_, ?_⟩ <;>
      simp +decide [init_electronics, configSensors, getOrList, h,
        DEFAULT_SENSORS, SENSOR_PM25, SENSOR_SGP30, SENSOR_SCD30, SENSOR_MS8607]
  · simp [configSleepSeconds, getOrInt, h, BASELINE_FREQUENCY]
  · simp [configLoc, getOrStr, h]
  · simp [configQuiet, getOrBool, h]

/-- Witness for C7: the empty configuration. -/
theorem config_defaults_C7_witness :
    configSensors cfgEmpty = [SENSOR_PM25, SENSOR_SGP30] ∧
    (init_electronics cfgEmpty devOk).scd30 = none ∧
    configSleepSeconds cfgEmpty = 60 ∧
    configLoc cfgEmpty = "unknown" ∧
    configQuiet cfgEmpty = false := by
  have h := config_defaults_C7 cfgEmpty devOk
  exact ⟨(h.1 rfl).1, (h.1 rfl).2.2.2.1, h.2.1 rfl, h.2.2.1 rfl, h.2.2.2 rfl⟩

/-- Claim C10: a present-but-falsy optional value behaves exactly as an
absent key: interval 0 becomes 60 seconds, an empty location string becomes
"unknown", `quiet: false` stays false (same as absent), and an empty sensors
list enables the default particulate + volatile-organic pair. -/
theorem config_falsy_C10 (fr : Option ℤ) (cb tb : Option ℕ) (lo : Option String)
    (qu : Option Bool) (se : Option (List String)) :
    configSleepSeconds ⟨some 0, cb, tb, lo, qu, se⟩
        = configSleepSeconds ⟨none, cb, tb, lo, qu, se⟩ ∧
    configSleepSeconds ⟨some 0, cb, tb, lo, qu, se⟩ = 60 ∧
    configLoc ⟨fr, cb, tb, some "", qu, se⟩
        = configLoc ⟨fr, cb, tb, none, qu, se⟩ ∧
    configLoc ⟨fr, cb, tb, some "", qu, se⟩ = "unknown" ∧
    configQuiet ⟨fr, cb, tb, lo, some false, se⟩
        = configQuiet ⟨fr, cb, tb, lo, none, se⟩ ∧
    configQuiet ⟨fr, cb, tb, lo, some false, se⟩ = false ∧
    configSensors ⟨fr, cb, tb, lo, qu, some []⟩
        = configSensors ⟨fr, cb, tb, lo, qu, none⟩ ∧
    configSensors ⟨fr, cb, tb, lo, qu, some []⟩ = DEFAULT_SENSORS := by
  refine ⟨?_, ?_, ?_, ?_, ?_, ?_, ?_, ?_⟩ <;>
    simp +decide [configSleepSeconds, configLoc, configQuiet, configSensors,
      getOrInt, getOrStr, getOrBool, getOrList, BASELINE_FREQUENCY]

/-! ## Numeric semantics (claim C8) -/

/-- The Python `round` result is within half a unit of its argument: it is a
nearest integer. -/
theorem pyRound_nearest (x : ℚ) : |(pyRound x : ℚ) - x| ≤ 1/2 := by
  have h0 : (0:ℚ) ≤ Int.fract x := Int.fract_nonneg x
  have h1 : Int.fract x < 1 := Int.fract_lt_one x
  have hf : (⌊x⌋ : ℚ) + Int.fract x = x := Int.floor_add_fract x
  unfold pyRound
  split_ifs with hlt hgt hev <;> rw [abs_le] <;> constructor <;>
    push_cast <;> linarith

/-- Claim C8: both sensors that report temperature emit a Fahrenheit field
equal to exactly `(9/5) * celsius + 32` (in particular `fahrenheit 0 = 32`
and `fahrenheit 100 = 212`), and a relative-humidity field equal to the
input humidity rounded to a nearest whole percent. -/
theorem temp_conversion_C8 (sm : MS8607Data) (sc : SCD30Data) (q : Bool) :
    fahrenheit 0 = 32 ∧ fahrenheit 100 = 212 ∧
    attrsOf (read_pht_body sm q) =
      [("ms8607.pressure_hPa", .num sm.pressure),
       ("ms8607.temp_C", .num sm.temperature),
       ("ms8607.temp_F", .num (9 / 5 * sm.temperature + 32)),
       ("ms8607.rel_humidity", .num (pyRound sm.relative_humidity))] ∧
    attrsOf (scd30Emit sc q) =
      [("scd30.actual_CO2", .num sc.CO2),
       ("scd30.temp_C", .num sc.temperature),
       ("scd30.temp_F", .num (9 / 5 * sc.temperature + 32)),
       ("scd30.rel_humidity", .num (pyRound sc.relative_humidity))] ∧
    (∀ h : ℚ, |(pyRound h : ℚ) - h| ≤ 1/2) := by
  refine ⟨by norm_num [fahrenheit], by norm_num [fahrenheit], ?_, ?_,
    pyRound_nearest⟩ <;>
    cases q <;> simp [read_pht_body, scd30Emit, attrsOf, fahrenheit]

/-! ## SCD30 bounded polling (claim C6) -/

/-- `scd30Emit` contains no poll and no sleep events. -/
theorem scd30Emit_no_poll_sleep (s : SCD30Data) (q : Bool) :
    pollCount (scd30Emit s q) = 0 ∧ totalSleep (scd30Emit s q) = 0 := by
  cases q <;> simp [scd30Emit, pollCount, totalSleep]

/-- `scd30Emit` emits exactly the four SCD30 fields. -/
theorem scd30Emit_attrs (s : SCD30Data) (q : Bool) :
    attrsOf (scd30Emit s q) =
      [("scd30.actual_CO2", .num s.CO2),
       ("scd30.temp_C", .num s.temperature),
       ("scd30.temp_F", .num (fahrenheit s.temperature)),
       ("scd30.rel_humidity", .num (pyRound s.relative_humidity))] := by
  cases q <;> simp [scd30Emit, attrsOf]

/-- Bounds on the polling loop: at most `fuel` polls and `fuel * 0.5` seconds
of sleep. -/
theorem read_real_co2_loop_bounds (s : SCD30Data) (q : Bool) :
    ∀ fuel i, pollCount (read_real_co2_loop s q i fuel) ≤ fuel ∧
      totalSleep (read_real_co2_loop s q i fuel) ≤ fuel * (1/2) := by
  intro fuel
  induction fuel with
  | zero => intro i; simp [read_real_co2_loop, pollCount, totalSleep]
  | succ fuel ih =>
    intro i
    unfold read_real_co2_loop
    split
    · have h := scd30Emit_no_poll_sleep s q
      refine ⟨?_, ?_⟩
      · simp [pollCount, h.1]
      · simp [totalSleep, h.2]
        positivity
    · have h := ih (i + 1)
      refine ⟨?_, ?_⟩
      · have h1 := h.1
        simp only [pollCount]
        omega
      · have h2 := h.2
        simp only [totalSleep]
        push_cast at h2 ⊢
        linarith

/-- If the data-ready flag stays false for `fuel` consecutive polls, the loop
emits nothing, polls exactly `fuel` times and sleeps exactly `fuel * 0.5`
seconds. -/
theorem read_real_co2_loop_never (s : SCD30Data) (q : Bool) :
    ∀ fuel i, (∀ k, k < fuel → s.data_available (i + k) = false) →
      attrCount (read_real_co2_loop s q i fuel) = 0 ∧
      pollCount (read_real_co2_loop s q i fuel) = fuel ∧
      totalSleep (read_real_co2_loop s q i fuel) = fuel * (1/2) := by
  intro fuel
  induction fuel with
  | zero => intro i h; simp [read_real_co2_loop, attrCount, pollCount, totalSleep]
  | succ fuel ih =>
    intro i h
    have h0 : s.data_available i = false := by simpa using h 0 (by omega)
    have hrest : ∀ k, k < fuel → s.data_available (i + 1 + k) = false := by
      intro k hk
      have := h (k + 1) (by omega)
      simpa [Nat.add_assoc, Nat.add_comm 1 k] using this
    have hr := ih (i + 1) hrest
    unfold read_real_co2_loop
    rw [h0]
    simp only [Bool.false_eq_true, if_false]
    simp [attrCount, pollCount, totalSleep, hr.1, hr.2.1, hr.2.2]
    push_cast
    ring

/-- If the data-ready flag first becomes true at the `j`-th poll (0-indexed)
with `j < fuel`, the loop emits exactly the four SCD30 fields, polls exactly
`j + 1` times and sleeps exactly `j * 0.5` seconds. -/
theorem read_real_co2_loop_found (s : SCD30Data) (q : Bool) :
    ∀ fuel i j, j < fuel → s.data_available (i + j) = true →
      (∀ k, k < j → s.data_available (i + k) = false) →
      attrsOf (read_real_co2_loop s q i fuel) =
        [("scd30.actual_CO2", .num s.CO2),
         ("scd30.temp_C", .num s.temperature),
         ("scd30.temp_F", .num (fahrenheit s.temperature)),
         ("scd30.rel_humidity", .num (pyRound s.relative_humidity))] ∧
      pollCount (read_real_co2_loop s q i fuel) = j + 1 ∧
      totalSleep (read_real_co2_loop s q i fuel) = j * (1/2) := by
  intro fuel
  induction fuel with
  | zero => intro i j hj; omega
  | succ fuel ih =>
    intro i j hj havail hbefore
    match j with
    | 0 =>
      have h0 : s.data_available i = true := by simpa using havail
      unfold read_real_co2_loop
      rw [h0]
      simp [attrsOf, pollCount, totalSleep, scd30Emit_attrs,
        (scd30Emit_no_poll_sleep s q).1, (scd30Emit_no_poll_sleep s q).2]
    | j + 1 =>
      have h0 : s.data_available i = false := by
        simpa using hbefore 0 (by omega)
      have havail2 : s.data_available (i + 1 + j) = true := by
        have e : i + 1 + j = i + (j + 1) := by omega
        rw [e]
        exact havail
      have hbefore2 : ∀ k, k < j → s.data_available (i + 1 + k) = false := by
        intro k hk
        have e : i + 1 + k = i + (k + 1) := by omega
        rw [e]
        exact hbefore (k + 1) (by omega)
      have hr := ih (i + 1) j (by omega) havail2 hbefore2
      unfold read_real_co2_loop
      rw [h0]
      simp only [Bool.false_eq_true, if_false]
      simp [attrsOf, pollCount, totalSleep, hr.1, hr.2.1, hr.2.2]
      push_cast
      ring

/-- Claim C6: each tick, the direct-CO2 read polls the data-ready flag at
most 30 times with a 0.5-second wait after each unsuccessful poll, so it
blocks at most 15 seconds. If no poll succeeds it emits zero fields (and
sleeps exactly 15 seconds). On the first successful poll (index `j`) it
emits exactly the four fields (CO2 ppm, temperature in Celsius, the derived
Fahrenheit value, and the rounded relative humidity) and stops polling,
having polled `j + 1` times and slept `j * 0.5` seconds. -/
theorem scd30_poll_C6 (s : SCD30Data) (q : Bool) :
    pollCount (read_real_co2_loop s q 0 30) ≤ 30 ∧
    totalSleep (read_real_co2_loop s q 0 30) ≤ 15 ∧
    ((∀ i, i < 30 → s.data_available i = false) →
      attrCount (read_real_co2_loop s q 0 30) = 0 ∧
      totalSleep (read_real_co2_loop s q 0 30) = 15) ∧
    (∀ j, j < 30 → s.data_available j = true →
      (∀ i, i < j → s.data_available i = false) →
      attrsOf (read_real_co2_loop s q 0 30) =
        [("scd30.actual_CO2", .num s.CO2),
         ("scd30.temp_C", .num s.temperature),
         ("scd30.temp_F", .num (fahrenheit s.temperature)),
         ("scd30.rel_humidity", .num (pyRound s.relative_humidity))] ∧
      pollCount (read_real_co2_loop s q 0 30) = j + 1 ∧
      totalSleep (read_real_co2_loop s q 0 30) = j * (1/2)) := by
  have hb := read_real_co2_loop_bounds s q 30 0
  refine ⟨hb.1, by linarith [hb.2], fun h => ?_, fun j hj ha hbef => ?_⟩
  · have hn := read_real_co2_loop_never s q 30 0 (by simpa using h)
    exact ⟨hn.1, by rw [hn.2.2]; norm_num⟩
  · have hf := read_real_co2_loop_found s q 30 0 j hj (by simpa using ha)
      (by simpa using hbef)
    exact hf

/-- Witness for C6: a sensor first ready at the fourth poll, and one that is
never ready. -/
theorem scd30_poll_C6_witness :
    (attrsOf (read_real_co2_loop scdReady3 false 0 30) =
      [("scd30.actual_CO2", .num scdReady3.CO2),
       ("scd30.temp_C", .num scdReady3.temperature),
       ("scd30.temp_F", .num (fahrenheit scdReady3.temperature)),
       ("scd30.rel_humidity", .num (pyRound scdReady3.relative_humidity))] ∧
     pollCount (read_real_co2_loop scdReady3 false 0 30) = 3 + 1 ∧
     totalSleep (read_real_co2_loop scdReady3 false 0 30) = 3 * (1/2)) ∧
    attrCount (read_real_co2_loop scdNever true 0 30) = 0 ∧
    totalSleep (read_real_co2_loop scdNever true 0 30) = 15 := by
  refine ⟨(scd30_poll_C6 scdReady3 false).2.2.2 3 (by decide) (by decide)
    (by decide), (scd30_poll_C6 scdNever true).2.2.1 (by decide)⟩


/-! ## No-throw runs and the span lifecycle (claims C9, C1, C3) -/

/-- The particulate stage completes whenever its read raises nothing worse
than the guarded `RuntimeError`. -/
theorem tickPM_noThrow (env : Env) (q : Bool) (t : ℕ)
    (h : ∀ r, env.pm25 = some r → ∀ u, r u ≠ .error .other) :
    ∃ evs, tickPM env q t = .ok evs := by
  unfold tickPM
  cases henv : env.pm25 with
  | none => exact ⟨[], rfl⟩
  | some r =>
    cases hr : r t with
    | ok d => exact ⟨_, by show read_particulates (r t) q = _; rw [hr]; rfl⟩
    | error e =>
      cases e with
      | runtimeError =>
        exact ⟨_, by show read_particulates (r t) q = _; rw [hr]; rfl⟩
      | other => exact absurd hr (h r henv t)

/-- The volatile-organic stage completes whenever its read succeeds. -/
theorem tickVol_noThrow (env : Env) (q : Bool) (bc t : ℕ)
    (h : ∀ r, env.sgp30 = some r → ∀ u, ∃ s, r u = .ok s) :
    ∃ res, tickVol env q bc t = .ok res := by
  unfold tickVol
  cases henv : env.sgp30 with
  | none => exact ⟨(bc, []), rfl⟩
  | some r =>
    obtain ⟨s, hs⟩ := h r henv t
    exact ⟨read_volatiles_body s bc q,
      by show read_volatiles (r t) bc q = _; rw [hs]; rfl⟩


/-- The direct-CO2 stage completes whenever its reads succeed. -/
theorem tickCO2_noThrow (env : Env) (q : Bool) (t : ℕ)
    (h : ∀ r, env.scd30 = some r → ∀ u, ∃ s, r u = .ok s) :
    ∃ evs, tickCO2 env q t = .ok evs := by
  unfold tickCO2
  cases henv : env.scd30 with
  | none => exact ⟨[], rfl⟩
  | some r =>
    obtain ⟨s, hs⟩ := h r henv t
    exact ⟨read_real_co2_loop s q 0 30,
      by show read_real_co2 (r t) q = _; rw [hs]; rfl⟩

/-- The PHT stage completes whenever its reads succeed. -/
theorem tickPHT_noThrow (env : Env) (q : Bool) (t : ℕ)
    (h : ∀ r, env.ms8607 = some r → ∀ u, ∃ s, r u = .ok s) :
    ∃ evs, tickPHT env q t = .ok evs := by
  unfold tickPHT
  cases henv : env.ms8607 with
  | none => exact ⟨[], rfl⟩
  | some r =>
    obtain ⟨s, hs⟩ := h r henv t
    exact ⟨read_pht_body s q, by show read_pht (r t) q = _; rw [hs]; rfl⟩

/-- A tick completes under `NoThrow`. -/
theorem tick_noThrow (env : Env) (h : NoThrow env) (q : Bool) (loc : String)
    (bc t : ℕ) : ∃ out, tick env q loc bc t = .ok out := by
  obtain ⟨h1, h2, h3, h4⟩ := h
  obtain ⟨pmEvs, hpm⟩ := tickPM_noThrow env q t h1
  obtain ⟨vres, hv⟩ := tickVol_noThrow env q bc t h2
  obtain ⟨cEvs, hc⟩ := tickCO2_noThrow env q t h3
  obtain ⟨pEvs, hp⟩ := tickPHT_noThrow env q t h4
  exact ⟨(vres.1, [Event.setAttr "location" (.str loc)] ++ pmEvs ++ vres.2
      ++ cEvs ++ pEvs),
    by simp only [tick, bind, Except.bind, pure, Except.pure, hpm, hv, hc, hp]⟩

/-- Any number of loop iterations completes under `NoThrow`. -/
theorem runLoop_noThrow (env : Env) (h : NoThrow env) (q : Bool) (loc : String)
    (ss : ℚ) (el : ℕ → ℚ) :
    ∀ n bc t, ∃ out, runLoop env q loc ss el bc t n = .ok out := by
  intro n
  induction n with
  | zero => intro bc t; exact ⟨(bc, []), rfl⟩
  | succ n ih =>
    intro bc t
    obtain ⟨out1, h1⟩ := tick_noThrow env h q loc bc t
    obtain ⟨out2, h2⟩ := ih out1.1 (t + 1)
    exact ⟨(out2.1, out1.2 ++ [Event.sleep (computeSleep ss (el t))] ++ out2.2),
      by simp only [runLoop, bind, Except.bind, pure, Except.pure, h1, h2]⟩

/-- The devices `devOk` never raise, whatever `cfgAll` enables. -/
theorem devOk_noThrow : NoThrow (init_electronics cfgAll devOk) := by
  refine ⟨fun r hr u => ?_, fun r hr u => ?_, fun r hr u => ?_, fun r hr u => ?_⟩
  · have hr2 : some devOk.pm25 = some r := hr
    cases hr2
    simp [devOk]
  · have hr2 : some devOk.sgp30 = some r := hr
    cases hr2
    exact ⟨sgpd1, rfl⟩
  · have hr2 : some devOk.scd30 = some r := hr
    cases hr2
    exact ⟨scdReady, rfl⟩
  · have hr2 : some devOk.ms8607 = some r := hr
    cases hr2
    exact ⟨phtd1, rfl⟩

/-- Claim C9 (amended): the process exits with status 1 at startup in exactly
the two claimed situations (missing argv entry; configuration missing or
unloadable), and a started loop keeps completing iterations indefinitely
PROVIDED no sensor read raises an unguarded exception. (As stated the claim
is false: an unguarded sensor exception escapes the loop and terminates the
process — see the counterexample.) -/
theorem startup_exit_C9 (argc : ℕ) (fc : ConfigFile) :
    (startExitCode (startup argc fc) = some 1 ↔
      argc < 2 ∨ read_config fc = none) ∧
    (∀ c, startup argc fc = .enterLoop c →
      ∀ dev, NoThrow (init_electronics c dev) →
        ∀ el n, pyOk (run_span_trace c dev el n) = true) := by
  constructor
  · unfold startup startExitCode
    split_ifs with h
    · simp [h]
    · cases hrc : read_config fc <;> simp [h, hrc]
  · intro c hc dev hnt el n
    obtain ⟨out, hout⟩ := runLoop_noThrow (init_electronics c dev) hnt
      (configQuiet c) (configLoc c) ((configSleepSeconds c : ℤ) : ℚ) el n 0 0
    unfold run_span_trace
    simp only [bind, Except.bind, pure, Except.pure, hout, pyOk]

/-- Witness for C9: the usage-exit equivalence at a concrete argv, and a
concrete no-throw run of two ticks that completes. -/
theorem startup_exit_C9_witness :
    (startExitCode (startup 1 (some (some cfgAll))) = some 1 ↔
      1 < 2 ∨ read_config (some (some cfgAll)) = none) ∧
    pyOk (run_span_trace cfgAll devOk (fun _ => 1) 2) = true := by
  exact ⟨(startup_exit_C9 1 (some (some cfgAll))).1,
    (startup_exit_C9 2 (some (some cfgAll))).2 cfgAll rfl devOk devOk_noThrow
      (fun _ => 1) 2⟩

/-- Counterexample to C9 as stated: with a valid argv and a readable
configuration the process enters the loop, yet the loop does not run
indefinitely — the first unguarded sensor exception aborts it (and the
Python process then dies with the uncaught exception, exiting 1 outside the
two claimed situations). -/
theorem startup_exit_C9_counterexample :
    startup 2 (some (some cfgAll)) = .enterLoop cfgAll ∧
    startExitCode (startup 2 (some (some cfgAll))) = none ∧
    run_span_trace cfgAll devBad (fun _ => 1) 1 = .error .other := by
  exact ⟨rfl, rfl, rfl⟩

/-- Claim C1 (amended): a single telemetry span (named "sniff") is created
once when `run` starts — not one per tick — and is never finalized while the
loop runs; each completed tick populates that same span, setting the
location label exactly once per tick. -/
theorem record_per_tick_C1 (c : Config) (dev : Devices) (el : ℕ → ℚ) (n : ℕ)
    (h : pyOk (run_span_trace c dev el n) = true) :
    spanCreateCount (traceOf (run_span_trace c dev el n)) = 1 ∧
    spanEndCount (traceOf (run_span_trace c dev el n)) = 0 ∧
    attrKeyCount "location" (traceOf (run_span_trace c dev el n)) = n := by
  cases hrun : run_span_trace c dev el n with
  | error e =>
    rw [hrun] at h
    simp [pyOk] at h
  | ok tr =>
    have h2 := hrun
    unfold run_span_trace at h2
    simp only [bind, Except.bind, pure, Except.pure] at h2
    split at h2
    · cases h2
    · rename_i r hr
      have hcl := runLoop_ok_clean (init_electronics c dev) (configQuiet c)
        (configLoc c) ((configSleepSeconds c : ℤ) : ℚ) el 0 0 n r.1 r.2 hr
      cases h2
      simp +decide [traceOf, spanCreateCount, spanEndCount, attrKeyCount,
        hcl.1, hcl.2.1, hcl.2.2]

/-- Witness for C1: a concrete two-tick run. -/
theorem record_per_tick_C1_witness :
    pyOk (run_span_trace cfgAll devOk (fun _ => 1) 2) = true ∧
    spanCreateCount (traceOf (run_span_trace cfgAll devOk (fun _ => 1) 2)) = 1 ∧
    spanEndCount (traceOf (run_span_trace cfgAll devOk (fun _ => 1) 2)) = 0 ∧
    attrKeyCount "location"
      (traceOf (run_span_trace cfgAll devOk (fun _ => 1) 2)) = 2 := by
  have h := record_per_tick_C1 cfgAll devOk (fun _ => 1) 2 (by decide)
  exact ⟨by decide, h.1, h.2.1, h.2.2⟩

/-- Counterexample to C1 as stated: a two-tick run creates one span in
total, not one per tick, and finalizes none at tick end. -/
theorem record_per_tick_C1_counterexample :
    pyOk (run_span_trace cfgAll devOk (fun _ => 1) 2) = true ∧
    spanCreateCount (traceOf (run_span_trace cfgAll devOk (fun _ => 1) 2)) ≠ 2 ∧
    spanEndCount (traceOf (run_span_trace cfgAll devOk (fun _ => 1) 2)) ≠ 2 := by
  exact ⟨by decide, by decide, by decide⟩

/-- With any outcome of the underlying read other than an unguarded
(non-`RuntimeError`) exception, `read_particulates` returns normally. -/
theorem read_particulates_ok_of_not_other (res : PyResult AQData) (q : Bool)
    (h : res ≠ .error .other) : ∃ evs, read_particulates res q = .ok evs := by
  cases res with
  | ok d => exact ⟨_, rfl⟩
  | error e =>
    cases e with
    | runtimeError => exact ⟨_, rfl⟩
    | other => exact absurd rfl h

/-- Claim C3 (amended): only the particulate read is guarded, and only
against `RuntimeError`. With all four sensors present: a `RuntimeError` in
the particulate read leaves the volatile-organic, direct-CO2 and PHT reads
intact in the same tick (the tick completes with their full traces after the
retry notice). Every other failure path is unguarded and aborts the tick
(and hence the loop): a non-`RuntimeError` exception in the particulate
read; an exception in the volatile-organic read (whether or not the
particulate read also failed with its guarded `RuntimeError`); an exception
in the direct-CO2 read; and an exception in the PHT read. -/
theorem sensor_guard_C3 (q : Bool) (loc : String) (bc t : ℕ)
    (pm : ℕ → PyResult AQData) (sg : ℕ → PyResult SGP30Data)
    (sc : ℕ → PyResult SCD30Data) (ms : ℕ → PyResult MS8607Data)
    (sgd : SGP30Data) (scd : SCD30Data) (msd : MS8607Data) :
    (pm t = .error .runtimeError → sg t = .ok sgd → sc t = .ok scd →
      ms t = .ok msd →
      tick ⟨some pm, some sg, some sc, some ms⟩ q loc bc t =
        .ok ((read_volatiles_body sgd bc q).1,
          [Event.setAttr "location" (.str loc),
           Event.consolePrint "Unable to read from sensor, retrying..."]
          ++ (read_volatiles_body sgd bc q).2 ++ read_real_co2_loop scd q 0 30
          ++ read_pht_body msd q)) ∧
    (pm t = .error .other →
      tick ⟨some pm, some sg, some sc, some ms⟩ q loc bc t = .error .other) ∧
    (∀ e, pm t ≠ .error .other → sg t = .error e →
      tick ⟨some pm, some sg, some sc, some ms⟩ q loc bc t = .error e) ∧
    (∀ e, pm t ≠ .error .other → sg t = .ok sgd → sc t = .error e →
      tick ⟨some pm, some sg, some sc, some ms⟩ q loc bc t = .error e) ∧
    (∀ e, pm t ≠ .error .other → sg t = .ok sgd → sc t = .ok scd →
      ms t = .error e →
      tick ⟨some pm, some sg, some sc, some ms⟩ q loc bc t = .error e) := by
  refine ⟨?_, ?_, ?_, ?_, ?_⟩
  · intro h1 h2 h3 h4
    simp only [tick, tickPM, tickVol, tickCO2, tickPHT, bind, Except.bind,
      pure, Except.pure, h1, h2, h3, h4, read_particulates, read_volatiles,
      read_real_co2, read_pht]
    simp
  · intro h1
    simp only [tick, tickPM, bind, Except.bind, pure, Except.pure, h1,
      read_particulates]
  · intro e hpm hsg
    obtain ⟨pmEvs, hpmEvs⟩ := read_particulates_ok_of_not_other (pm t) q hpm
    simp only [tick, tickPM, tickVol, bind, Except.bind, pure, Except.pure,
      hpmEvs, read_volatiles, hsg]
  · intro e hpm hsg hsc
    obtain ⟨pmEvs, hpmEvs⟩ := read_particulates_ok_of_not_other (pm t) q hpm
    simp only [tick, tickPM, tickVol, tickCO2, bind, Except.bind, pure,
      Except.pure, hpmEvs, read_volatiles, hsg, read_real_co2, hsc]
  · intro e hpm hsg hsc hms
    obtain ⟨pmEvs, hpmEvs⟩ := read_particulates_ok_of_not_other (pm t) q hpm
    simp only [tick, tickPM, tickVol, tickCO2, tickPHT, bind, Except.bind,
      pure, Except.pure, hpmEvs, read_volatiles, hsg, read_real_co2, hsc,
      read_pht, hms]

/-- Witness for C3: concrete sensors exercising all five conjuncts — the
guarded particulate RuntimeError with the other three reads intact, and the
four unguarded aborting paths. -/
theorem sensor_guard_C3_witness :
    tick ⟨some (fun _ => .error .runtimeError), some (fun _ => .ok sgpd1),
        some (fun _ => .ok scdReady), some (fun _ => .ok phtd1)⟩
        true "lab" 0 0 =
      .ok ((read_volatiles_body sgpd1 0 true).1,
        [Event.setAttr "location" (.str "lab"),
         Event.consolePrint "Unable to read from sensor, retrying..."]
        ++ (read_volatiles_body sgpd1 0 true).2
        ++ read_real_co2_loop scdReady true 0 30 ++ read_pht_body phtd1 true) ∧
    tick ⟨some (fun _ => .error .other), some (fun _ => .ok sgpd1),
        some (fun _ => .ok scdReady), some (fun _ => .ok phtd1)⟩
        true "lab" 0 0 = .error .other ∧
    tick ⟨some (fun _ => .ok aqd1), some (fun _ => .error .other),
        some (fun _ => .ok scdReady), some (fun _ => .ok phtd1)⟩
        true "lab" 0 0 = .error .other ∧
    tick ⟨some (fun _ => .ok aqd1), some (fun _ => .ok sgpd1),
        some (fun _ => .error .other), some (fun _ => .ok phtd1)⟩
        true "lab" 0 0 = .error .other ∧
    tick ⟨some (fun _ => .ok aqd1), some (fun _ => .ok sgpd1),
        some (fun _ => .ok scdReady), some (fun _ => .error .other)⟩
        true "lab" 0 0 = .error .other := by
  have h1 := sensor_guard_C3 true "lab" 0 0 (fun _ => .error .runtimeError)
    (fun _ => .ok sgpd1) (fun _ => .ok scdReady) (fun _ => .ok phtd1)
    sgpd1 scdReady phtd1
  have h2 := sensor_guard_C3 true "lab" 0 0 (fun _ => .error .other)
    (fun _ => .ok sgpd1) (fun _ => .ok scdReady) (fun _ => .ok phtd1)
    sgpd1 scdReady phtd1
  have h3 := sensor_guard_C3 true "lab" 0 0 (fun _ => .ok aqd1)
    (fun _ => .error .other) (fun _ => .ok scdReady) (fun _ => .ok phtd1)
    sgpd1 scdReady phtd1
  have h4 := sensor_guard_C3 true "lab" 0 0 (fun _ => .ok aqd1)
    (fun _ => .ok sgpd1) (fun _ => .error .other) (fun _ => .ok phtd1)
    sgpd1 scdReady phtd1
  have h5 := sensor_guard_C3 true "lab" 0 0 (fun _ => .ok aqd1)
    (fun _ => .ok sgpd1) (fun _ => .ok scdReady) (fun _ => .error .other)
    sgpd1 scdReady phtd1
  exact ⟨h1.1 rfl rfl rfl rfl, h2.2.1 rfl,
    h3.2.2.1 .other (by simp) rfl,
    h4.2.2.2.1 .other (by simp) rfl rfl,
    h5.2.2.2.2 .other (by simp) rfl rfl rfl⟩

/-- Counterexample to C3 as stated: an exception in the volatile-organic
read is not guarded; it aborts the whole tick, preventing the direct-CO2 and
PHT reads that come after it. -/
theorem sensor_guard_C3_counterexample :
    tick (init_electronics cfgAll devBad) true "lab" 0 0 = .error .other := rfl


end TheNose
